import Mathlib

/- Shallow embedding of the PropertyConnect listing service: the rating
   aggregator (models/User.js, userSchema.methods.updateRating), the pager,
   filter builder and sort resolver of the property and agent listing routes,
   the property status update, the image-list operations (routes/upload.js)
   and the single-property view counter (models/Property.js,
   propertySchema.methods.incrementViews).  Numbers that the code handles as
   JS doubles are modelled as exact rationals; ids as naturals. -/

namespace PropertyConnect

/-! ## Rating aggregator (models/User.js, `updateRating`) -/

/-- Running rating state stored on an agent profile: `agentProfile.rating`. -/
structure Rating where
  average : ℚ
  count : ℕ
deriving DecidableEq, Repr

/-- Embedding of `userSchema.methods.updateRating`:
`currentTotal = average * count; count += 1; average = (currentTotal + newRating) / count`. -/
def updateRating (r : Rating) (newRating : ℚ) : Rating :=
  { average := (r.average * r.count + newRating) / (r.count + 1)
    count := r.count + 1 }

/-- Folding a sequence of submitted ratings into a rating state, in submission
order, as repeated calls of `updateRating` do. -/
def applyRatings (r : Rating) (rs : List ℚ) : Rating :=
  rs.foldl updateRating r

/-- The fresh rating state: schema defaults `average = 0`, `count = 0`. -/
def initialRating : Rating := { average := 0, count := 0 }

lemma updateRating_count (r : Rating) (x : ℚ) :
    (updateRating r x).count = r.count + 1 := rfl

lemma updateRating_total (r : Rating) (x : ℚ) :
    (updateRating r x).average * ((updateRating r x).count : ℚ) =
      r.average * (r.count : ℚ) + x := by
  have h : ((r.count : ℚ) + 1) ≠ 0 := by positivity
  simp only [updateRating]
  push_cast
  rw [div_mul_cancel₀ _ h]

lemma applyRatings_count (rs : List ℚ) (r : Rating) :
    (applyRatings r rs).count = r.count + rs.length := by
  induction rs generalizing r with
  | nil => simp [applyRatings]
  | cons x xs ih =>
      simp only [applyRatings, List.foldl_cons] at *
      rw [ih (updateRating r x), updateRating_count, List.length_cons]
      omega

lemma applyRatings_total (rs : List ℚ) (r : Rating) :
    (applyRatings r rs).average * ((applyRatings r rs).count : ℚ) =
      r.average * (r.count : ℚ) + rs.sum := by
  induction rs generalizing r with
  | nil => simp [applyRatings]
  | cons x xs ih =>
      simp only [applyRatings, List.foldl_cons] at *
      rw [ih (updateRating r x), updateRating_total, List.sum_cons]
      ring

/-- Claim C1: the rating aggregator maps `(average, count)` and a new rating to
`((average*count + newRating)/(count+1), count+1)`; consequently, folding any
nonempty sequence of ratings in `[1,5]` in order from the fresh state `(0, 0)`
yields final count `n` and final average exactly `mean(r1..rn)` (the embedding
computes in exact rationals, so "within floating-point tolerance" is met with
zero error). -/
theorem updateRating_computes_incremental_mean :
    (∀ (avg : ℚ) (cnt : ℕ) (x : ℚ),
        updateRating ⟨avg, cnt⟩ x = ⟨(avg * cnt + x) / (cnt + 1), cnt + 1⟩) ∧
    (∀ rs : List ℚ, (∀ x ∈ rs, 1 ≤ x ∧ x ≤ 5) → rs ≠ [] →
        (applyRatings initialRating rs).count = rs.length ∧
        (applyRatings initialRating rs).average = rs.sum / rs.length) := by
  constructor
  · intro avg cnt x
    rfl
  · intro rs _hrange hne
    have hcount : (applyRatings initialRating rs).count = rs.length := by
      rw [applyRatings_count]
      simp [initialRating]
    refine ⟨hcount, ?_⟩
    have htotal := applyRatings_total rs initialRating
    rw [hcount] at htotal
    have hz : initialRating.average * ((initialRating.count : ℕ) : ℚ) + rs.sum = rs.sum := by
      simp [initialRating]
    rw [hz] at htotal
    have hlen : ((rs.length : ℚ)) ≠ 0 := by
      have hlen0 : rs.length ≠ 0 := by
        intro h
        exact hne (List.eq_nil_of_length_eq_zero h)
      exact_mod_cast hlen0
    rw [eq_div_iff hlen]
    exact htotal

/-- Witness for claim C1 at the concrete sequence `[2, 4]`. -/
theorem updateRating_computes_incremental_mean_witness :
    (applyRatings initialRating [2, 4]).count = 2 ∧
    (applyRatings initialRating [2, 4]).average = ([2, 4] : List ℚ).sum / 2 := by
  have h := updateRating_computes_incremental_mean.2 [2, 4]
    (by intro x hx; fin_cases hx <;> norm_num) (by simp)
  simpa using h

/-! ## Pager (GET /api/properties, GET /api/agents, and the other listing
routes: `skip = (page - 1) * limit`, `.skip(skip).limit(limit)`,
`pages = Math.ceil(total / limit)`). -/

/-- Embedding of `const skip = (page - 1) * limit`. -/
def pageSkip (page limit : ℕ) : ℕ := (page - 1) * limit

/-- Effect of `.skip(skip).limit(limit)` on a result list. -/
def applyPaging {α : Type} (l : List α) (page limit : ℕ) : List α :=
  (l.drop (pageSkip page limit)).take limit

/-- Embedding of `pages: Math.ceil(total / limit)` (exact on naturals for
`limit ≥ 1`). -/
def totalPages (total limit : ℕ) : ℕ := (total + limit - 1) / limit

/-- Modelled from the spec: total page count is the ceiling of the exact
(rational) quotient `total / size`. -/
def specCeilPages (total limit : ℕ) : ℕ := Nat.ceil ((total : ℚ) / (limit : ℚ))

lemma totalPages_le_iff (total limit n : ℕ) (hl : 0 < limit) :
    totalPages total limit ≤ n ↔ total ≤ n * limit := by
  unfold totalPages
  rw [Nat.div_le_iff_le_mul_add_pred hl, Nat.mul_comm n limit]
  omega

lemma specCeilPages_le_iff (total limit n : ℕ) (hl : 0 < limit) :
    specCeilPages total limit ≤ n ↔ total ≤ n * limit := by
  unfold specCeilPages
  rw [Nat.ceil_le]
  rw [div_le_iff₀ (by exact_mod_cast hl)]
  exact_mod_cast Iff.rfl

lemma totalPages_eq_specCeilPages (total limit : ℕ) (hl : 0 < limit) :
    totalPages total limit = specCeilPages total limit := by
  apply le_antisymm
  · rw [totalPages_le_iff _ _ _ hl]
    exact (specCeilPages_le_iff _ _ _ hl).1 le_rfl
  · rw [specCeilPages_le_iff _ _ _ hl]
    exact (totalPages_le_iff _ _ _ hl).1 le_rfl

/-- Claim C2: for every valid page (`≥ 1`) and size, the pager computes offset
`(page-1)*size`, applies a limit of `size` so the returned element count is
`≤ size`, and reports `ceil(total/size)` total pages. -/
theorem pager_skip_limit_pages (page limit total : ℕ) (l : List ℕ)
    (hpage : 1 ≤ page) (hlimit : 1 ≤ limit) :
    pageSkip page limit = (page - 1) * limit ∧
    (applyPaging l page limit).length ≤ limit ∧
    totalPages total limit = specCeilPages total limit := by
  refine ⟨rfl, ?_, totalPages_eq_specCeilPages total limit hlimit⟩
  unfold applyPaging
  calc ((l.drop (pageSkip page limit)).take limit).length
      ≤ limit := by
        rw [List.length_take]
        exact min_le_left _ _

/-- Witness for claim C2 at page 2, size 3, total 7, on a 7-element list. -/
theorem pager_skip_limit_pages_witness :
    pageSkip 2 3 = (2 - 1) * 3 ∧
    (applyPaging [0, 1, 2, 3, 4, 5, 6] 2 3).length ≤ 3 ∧
    totalPages 7 3 = specCeilPages 7 3 :=
  pager_skip_limit_pages 2 3 7 [0, 1, 2, 3, 4, 5, 6] (by decide) (by decide)

/-! ## Page/limit validation (GET /api/properties and GET /api/agents declare
express-validator checks `page ≥ 1`, `1 ≤ limit ≤ 50`; GET
/api/properties/agent/my-properties declares none and uses
`parseInt(req.query.x) || default` directly). A query parameter is modelled as
`Option Int`: `none` for absent (or non-numeric, which `parseInt` turns into
`NaN`), `some v` for an integer-valued parameter. -/

/-- Outcome of an endpoint's page/limit handling: a 400 validation rejection,
or acceptance with the effective page and limit. -/
inductive PageOutcome where
  | rejected : PageOutcome
  | accepted : Int → Int → PageOutcome
deriving DecidableEq, Repr

/-- Embedding of `parseInt(q) || d`: absent/`NaN` and `0` both fall through to
the default (`0` is falsy in JS). -/
def jsParseIntOr (q : Option Int) (d : Int) : Int :=
  match q with
  | none => d
  | some v => if v = 0 then d else v

/-- Failure of the `query(page).optional().isInt(min 1)` validator: a present
page below 1 (absent passes `optional()`). -/
def pageOutOfBounds (page : Option Int) : Bool :=
  match page with
  | some p => decide (p < 1)
  | none => false

/-- Failure of the `query(limit).optional().isInt(min 1, max 50)` validator. -/
def limitOutOfBounds (limit : Option Int) : Bool :=
  match limit with
  | some l => decide (l < 1) || decide (50 < l)
  | none => false

/-- Page/limit handling of the validated listing endpoints (GET
/api/properties, GET /api/agents, GET /api/agents/:id/properties, GET
/api/contact): `query(page).optional().isInt(min 1)`,
`query(limit).optional().isInt(min 1, max 50)`, then
`parseInt(...) || default`. -/
def validatedPaging (page limit : Option Int) : PageOutcome :=
  if pageOutOfBounds page then .rejected
  else if limitOutOfBounds limit then .rejected
  else .accepted (jsParseIntOr page 1) (jsParseIntOr limit 10)

/-- Page/limit handling of GET /api/properties/agent/my-properties: no
validators at all, just `parseInt(req.query.page) || 1` and
`parseInt(req.query.limit) || 10`. -/
def myPropertiesPaging (page limit : Option Int) : PageOutcome :=
  .accepted (jsParseIntOr page 1) (jsParseIntOr limit 10)

/-- Counterexample to claim C3 as stated: on the paginated endpoint GET
/api/properties/agent/my-properties, the out-of-bounds request `page=0,
limit=100` is not rejected with a validation error; it is silently coerced to
`page=1` (via `|| 1`) and served with `limit=100`. -/
theorem myPropertiesPaging_not_rejecting :
    myPropertiesPaging (some 0) (some 100) = PageOutcome.accepted 1 100 ∧
    myPropertiesPaging (some 0) (some 100) ≠ PageOutcome.rejected := by
  decide

/-- Claim C3 (amended): on the listing endpoints that declare validators (GET
/api/properties, GET /api/agents, GET /api/agents/:id/properties, GET
/api/contact) an out-of-bounds page or limit is rejected with a validation
error and an in-bounds pair is used exactly as given, never clamped; but GET
/api/properties/agent/my-properties performs no validation and never rejects,
silently substituting defaults for absent or zero parameters. -/
theorem paging_validation_per_endpoint (page limit : Option Int) :
    (∀ p : Int, page = some p → p < 1 → validatedPaging page limit = .rejected) ∧
    (∀ l : Int, limit = some l → (l < 1 ∨ 50 < l) →
        validatedPaging page limit = .rejected) ∧
    (∀ p l : Int, page = some p → limit = some l →
        1 ≤ p → 1 ≤ l → l ≤ 50 →
        validatedPaging page limit = .accepted p l) ∧
    myPropertiesPaging page limit ≠ PageOutcome.rejected := by
  refine ⟨?_, ?_, ?_, ?_⟩
  · intro p hp hlt
    subst hp
    simp [validatedPaging, pageOutOfBounds, hlt]
  · intro l hl hout
    subst hl
    have hlb : limitOutOfBounds (some l) = true := by
      simp only [limitOutOfBounds, Bool.or_eq_true, decide_eq_true_eq]
      omega
    cases hpb : pageOutOfBounds page <;>
      simp [validatedPaging, hpb, hlb]
  · intro p l hp hl hp1 hl1 hl50
    subst hp; subst hl
    have h1 : ¬ (p < 1) := by omega
    have h2 : ¬ (l < 1) := by omega
    have h3 : ¬ (50 < l) := by omega
    have hpz : ¬ (p = 0) := by omega
    have hlz : ¬ (l = 0) := by omega
    simp [validatedPaging, pageOutOfBounds, limitOutOfBounds, jsParseIntOr,
      h1, h2, h3, hpz, hlz]
  · unfold myPropertiesPaging
    intro h
    exact PageOutcome.noConfusion h

/-- Witness for (amended) claim C3: `page=0` is rejected by the validated
endpoints; `page=2, limit=50` is accepted unclamped; my-properties never
rejects. -/
theorem paging_validation_per_endpoint_witness :
    validatedPaging (some 0) (some 10) = PageOutcome.rejected ∧
    validatedPaging (some 2) (some 50) = PageOutcome.accepted 2 50 ∧
    myPropertiesPaging (some 0) (some 100) ≠ PageOutcome.rejected :=
  ⟨(paging_validation_per_endpoint (some 0) (some 10)).1 0 rfl (by decide),
   (paging_validation_per_endpoint (some 2) (some 50)).2.2.1 2 50 rfl rfl
     (by decide) (by decide) (by decide),
   (paging_validation_per_endpoint (some 0) (some 100)).2.2.2⟩

/-! ## Sort resolver (GET /api/properties and GET /api/agents sort
construction). A sort spec is an ordered list of (field path, direction)
pairs, direction `1` ascending, `-1` descending. -/

/-- Nested-key mapping of the property sort: `price ↦ price.amount`,
`area ↦ specifications.area.value`, anything else is used as the field
itself. -/
def propertySortField (sortBy : String) : String :=
  if sortBy = "price" then "price.amount"
  else if sortBy = "area" then "specifications.area.value"
  else sortBy

/-- Embedding of the GET /api/properties sort construction. -/
def buildPropertySort (sortBy sortOrder : Option String) : List (String × Int) :=
  match sortBy with
  | some key => [(propertySortField key, if sortOrder = some "asc" then 1 else -1)]
  | none => [("featured", -1), ("createdAt", -1)]

/-- Nested-key mapping of the agent sort: `rating ↦
agentProfile.rating.average`, `experience ↦ agentProfile.experience`,
`transactions ↦ agentProfile.totalTransactions`. -/
def agentSortField (sortBy : String) : String :=
  if sortBy = "rating" then "agentProfile.rating.average"
  else if sortBy = "experience" then "agentProfile.experience"
  else if sortBy = "transactions" then "agentProfile.totalTransactions"
  else sortBy

/-- Embedding of the GET /api/agents sort construction. -/
def buildAgentSort (sortBy sortOrder : Option String) : List (String × Int) :=
  match sortBy with
  | some key => [(agentSortField key, if sortOrder = some "asc" then 1 else -1)]
  | none =>
      [("agentProfile.rating.average", -1), ("agentProfile.totalTransactions", -1)]

/-- Claim C5: with no sort key the property sort is featured-first then
newest-first and the agent sort is rating average descending then total
transactions descending; with a sort key, the nested keys price, area, rating,
experience and transactions map to their composite field paths (direction `-1`
unless `sortOrder=asc`). -/
theorem sort_resolver_defaults_and_nested_keys (o : Option String) :
    buildPropertySort none o = [("featured", -1), ("createdAt", -1)] ∧
    buildAgentSort none o =
      [("agentProfile.rating.average", -1), ("agentProfile.totalTransactions", -1)] ∧
    buildPropertySort (some "price") o =
      [("price.amount", if o = some "asc" then 1 else -1)] ∧
    buildPropertySort (some "area") o =
      [("specifications.area.value", if o = some "asc" then 1 else -1)] ∧
    buildAgentSort (some "rating") o =
      [("agentProfile.rating.average", if o = some "asc" then 1 else -1)] ∧
    buildAgentSort (some "experience") o =
      [("agentProfile.experience", if o = some "asc" then 1 else -1)] ∧
    buildAgentSort (some "transactions") o =
      [("agentProfile.totalTransactions", if o = some "asc" then 1 else -1)] :=
  ⟨rfl, rfl, rfl, rfl, rfl, rfl, rfl⟩

/-! ## Filter builder (GET /api/properties filter construction, and the GET
/api/properties/agent/my-properties filter). String parameters are `Option
String` (`none` = absent); an empty string is present but falsy in JS, so the
`if (req.query.x)` guards skip it. Numeric parameters are modelled post-parse
(`Option Int` / `Option ℚ`); a present numeric parameter is always a non-empty
string, hence truthy. -/

/-- Query parameters of GET /api/properties that feed the filter. -/
structure PropertyQueryParams where
  type : Option String
  listingType : Option String
  city : Option String
  state : Option String
  bedrooms : Option Int
  bathrooms : Option Int
  minPrice : Option ℚ
  maxPrice : Option ℚ
  search : Option String
deriving DecidableEq, Repr

/-- The request with no parameters. -/
def noParams : PropertyQueryParams :=
  { type := none, listingType := none, city := none, state := none
    bedrooms := none, bathrooms := none, minPrice := none, maxPrice := none
    search := none }

/-- JS truthiness of an optional string parameter: kept only when present and
non-empty. -/
def strParam (s : Option String) : Option String :=
  match s with
  | none => none
  | some v => if v = "" then none else some v

/-- The `price.amount` sub-predicate: `$gte` / `$lte` bounds. -/
structure PriceRange where
  ge : Option ℚ
  le : Option ℚ
deriving DecidableEq, Repr

/-- The query predicate built for `Property.find`. Each field is `none` when
the corresponding key is not in the filter object. `city`, `state` and
`search` carry the source text of the case-insensitive regular expressions the
code builds from them. -/
structure PropertyFilter where
  status : Option String
  agent : Option ℕ
  type : Option String
  listingType : Option String
  city : Option String
  state : Option String
  bedroomsGe : Option Int
  bathroomsGe : Option Int
  price : Option PriceRange
  search : Option String
deriving DecidableEq, Repr

/-- The documented default public predicate: only `status = active`. -/
def defaultPublicFilter : PropertyFilter :=
  { status := some "active", agent := none, type := none, listingType := none
    city := none, state := none, bedroomsGe := none, bathroomsGe := none
    price := none, search := none }

/-- Embedding of the GET /api/properties filter construction: starts from
`{ status: 'active' }` and adds a key per truthy parameter; `price.amount` is
added when either price bound is present. -/
def buildPropertyFilter (q : PropertyQueryParams) : PropertyFilter :=
  { status := some "active"
    agent := none
    type := strParam q.type
    listingType := strParam q.listingType
    city := strParam q.city
    state := strParam q.state
    bedroomsGe := q.bedrooms
    bathroomsGe := q.bathrooms
    price :=
      match q.minPrice, q.maxPrice with
      | none, none => none
      | mn, mx => some { ge := mn, le := mx }
    search := strParam q.search }

/-- Embedding of the GET /api/properties/agent/my-properties filter
construction: `{ agent: req.user.id }`, plus `status` only when the status
parameter is truthy. -/
def buildMyPropertiesFilter (agentId : ℕ) (status : Option String) : PropertyFilter :=
  { status := strParam status, agent := some agentId, type := none
    listingType := none, city := none, state := none, bedroomsGe := none
    bathroomsGe := none, price := none, search := none }

/-- Claim C4: the filter builder never emits a key for an absent parameter;
with no parameters the public predicate is exactly the documented default
`status = active`, and the my-properties predicate is exactly the caller's
agent id, adding a status restriction only when a status parameter is
given. -/
theorem filter_builder_omits_absent_params (q : PropertyQueryParams) (uid : ℕ) :
    (q.type = none → (buildPropertyFilter q).type = none) ∧
    (q.listingType = none → (buildPropertyFilter q).listingType = none) ∧
    (q.city = none → (buildPropertyFilter q).city = none) ∧
    (q.state = none → (buildPropertyFilter q).state = none) ∧
    (q.bedrooms = none → (buildPropertyFilter q).bedroomsGe = none) ∧
    (q.bathrooms = none → (buildPropertyFilter q).bathroomsGe = none) ∧
    (q.minPrice = none → q.maxPrice = none → (buildPropertyFilter q).price = none) ∧
    (q.search = none → (buildPropertyFilter q).search = none) ∧
    buildPropertyFilter noParams = defaultPublicFilter ∧
    buildMyPropertiesFilter uid none =
      { defaultPublicFilter with status := none, agent := some uid } ∧
    (∀ s : String, s ≠ "" →
        buildMyPropertiesFilter uid (some s) =
          { defaultPublicFilter with status := some s, agent := some uid }) := by
  refine ⟨?_, ?_, ?_, ?_, ?_, ?_, ?_, ?_, rfl, rfl, ?_⟩
  · intro h; simp [buildPropertyFilter, strParam, h]
  · intro h; simp [buildPropertyFilter, strParam, h]
  · intro h; simp [buildPropertyFilter, strParam, h]
  · intro h; simp [buildPropertyFilter, strParam, h]
  · intro h; simp [buildPropertyFilter, h]
  · intro h; simp [buildPropertyFilter, h]
  · intro h1 h2; simp [buildPropertyFilter, h1, h2]
  · intro h; simp [buildPropertyFilter, strParam, h]
  · intro s hs
    simp [buildMyPropertiesFilter, strParam, hs, defaultPublicFilter]

/-- Witness for claim C4 at the no-parameter request (and `status=active` for
the my-properties status branch). -/
theorem filter_builder_omits_absent_params_witness :
    buildPropertyFilter noParams = defaultPublicFilter ∧
    buildMyPropertiesFilter 7 none =
      { defaultPublicFilter with status := none, agent := some 7 } ∧
    buildMyPropertiesFilter 7 (some "active") =
      { defaultPublicFilter with status := some "active", agent := some 7 } :=
  ⟨(filter_builder_omits_absent_params noParams 7).2.2.2.2.2.2.2.2.1,
   (filter_builder_omits_absent_params noParams 7).2.2.2.2.2.2.2.2.2.1,
   (filter_builder_omits_absent_params noParams 7).2.2.2.2.2.2.2.2.2.2 "active"
     (by decide)⟩

/-! ## Property documents (models/Property.js), status updates and the view
counter. Ids are naturals; `Image.id` is the mongoose subdocument `_id`. -/

/-- An element of the property's `images` array. -/
structure Image where
  id : ℕ
  public_id : String
  url : String
  caption : String
  isPrimary : Bool
deriving DecidableEq, Repr

/-- The `analytics` subdocument. -/
structure Analytics where
  impressions : ℕ
  clicks : ℕ
  saves : ℕ
deriving DecidableEq, Repr

/-- The fields of a property document the verified operations touch or must
leave unchanged. -/
structure Property where
  agent : ℕ
  status : String
  featured : Bool
  title : String
  priceAmount : ℚ
  views : ℕ
  analytics : Analytics
  images : List Image
deriving DecidableEq, Repr

/-- The authenticated requester (`req.user`): id and role. -/
structure Requester where
  id : ℕ
  role : String
deriving DecidableEq, Repr

/-- The `status` enumeration of `propertySchema`. -/
def statusEnum : List String :=
  ["draft", "active", "pending", "sold", "rented", "inactive"]

/-- Embedding of PUT /api/properties/:id/status (found property given):
`body(status).isIn(enum)` else 400; owner-or-admin else 403; then
`property.status = req.body.status; property.save()` with no look at the old
status. -/
def updateStatusEndpoint (p : Property) (u : Requester) (newStatus : String) :
    Except ℕ Property :=
  if ¬ (newStatus ∈ statusEnum) then .error 400
  else if p.agent ≠ u.id ∧ u.role ≠ "admin" then .error 403
  else .ok { p with status := newStatus }

/-- Claim C6: the explicit status update accepts every pair of statuses drawn
from the enumeration — in particular `sold → active` and `draft → sold` — and
enforces only that the requester owns the property or is an admin and that the
new status is in the enumeration (out-of-enum gets 400, wrong requester gets
403). -/
theorem status_update_no_transition_graph (p : Property) (u : Requester)
    (s : String) :
    (s ∈ statusEnum → (u.id = p.agent ∨ u.role = "admin") →
        updateStatusEndpoint p u s = .ok { p with status := s }) ∧
    (s ∉ statusEnum → updateStatusEndpoint p u s = .error 400) ∧
    (u.id ≠ p.agent → u.role ≠ "admin" → s ∈ statusEnum →
        updateStatusEndpoint p u s = .error 403) := by
  refine ⟨?_, ?_, ?_⟩
  · intro hs hu
    unfold updateStatusEndpoint
    rw [if_neg (by simpa using hs)]
    rcases hu with hu | hu
    · rw [if_neg (by simp [hu])]
    · rw [if_neg (by simp [hu])]
  · intro hs
    unfold updateStatusEndpoint
    rw [if_pos (by simpa using hs)]
  · intro hne hrole hs
    unfold updateStatusEndpoint
    rw [if_neg (by simpa using hs), if_pos ⟨fun h => hne h.symm, hrole⟩]

/-- Witness for claim C6: the owning agent moves a sold property back to
active, and a draft property directly to sold. -/
theorem status_update_no_transition_graph_witness :
    updateStatusEndpoint
        { agent := 3, status := "sold", featured := false, title := "t"
          priceAmount := 1, views := 0
          analytics := { impressions := 0, clicks := 0, saves := 0 }
          images := [] }
        { id := 3, role := "agent" } "active" =
      .ok { agent := 3, status := "active", featured := false, title := "t"
            priceAmount := 1, views := 0
            analytics := { impressions := 0, clicks := 0, saves := 0 }
            images := [] } ∧
    updateStatusEndpoint
        { agent := 3, status := "draft", featured := false, title := "t"
          priceAmount := 1, views := 0
          analytics := { impressions := 0, clicks := 0, saves := 0 }
          images := [] }
        { id := 3, role := "agent" } "sold" =
      .ok { agent := 3, status := "sold", featured := false, title := "t"
            priceAmount := 1, views := 0
            analytics := { impressions := 0, clicks := 0, saves := 0 }
            images := [] } :=
  ⟨(status_update_no_transition_graph _ _ "active").1 (by decide) (Or.inl rfl),
   (status_update_no_transition_graph _ _ "sold").1 (by decide) (Or.inl rfl)⟩

/-! ## Single-property view counter (GET /api/properties/:id and
`propertySchema.methods.incrementViews`). -/

/-- Embedding of `incrementViews`: `views += 1; analytics.impressions += 1`. -/
def incrementViews (p : Property) : Property :=
  { p with
      views := p.views + 1
      analytics := { p.analytics with impressions := p.analytics.impressions + 1 } }

/-- Stored state of a found property after GET /api/properties/:id:
`incrementViews` runs unless the authenticated requester is the owning
agent. -/
def getPropertyStore (requester : Option ℕ) (p : Property) : Property :=
  match requester with
  | none => incrementViews p
  | some u => if u ≠ p.agent then incrementViews p else p

/-- Claim C10: fetching a property increments `views` and
`analytics.impressions` by exactly 1 and leaves every other field unchanged,
except when the requester is the owning agent, in which case nothing
changes. -/
theorem get_property_view_increment_frame (r : Option ℕ) (p : Property) :
    (r = some p.agent → getPropertyStore r p = p) ∧
    (r ≠ some p.agent →
        getPropertyStore r p =
          { p with
              views := p.views + 1
              analytics :=
                { p.analytics with
                    impressions := p.analytics.impressions + 1 } }) := by
  constructor
  · intro h
    subst h
    simp [getPropertyStore]
  · intro h
    rcases r with _ | u
    · rfl
    · have hu : u ≠ p.agent := fun he => h (by rw [he])
      simp [getPropertyStore, hu, incrementViews]

/-- Witness for claim C10: an anonymous fetch bumps the two counters of a
concrete property; the owner's fetch leaves it unchanged. -/
theorem get_property_view_increment_frame_witness :
    getPropertyStore (some 3)
        { agent := 3, status := "active", featured := true, title := "t"
          priceAmount := 5, views := 9
          analytics := { impressions := 4, clicks := 2, saves := 1 }
          images := [] } =
      { agent := 3, status := "active", featured := true, title := "t"
        priceAmount := 5, views := 9
        analytics := { impressions := 4, clicks := 2, saves := 1 }
        images := [] } ∧
    getPropertyStore none
        { agent := 3, status := "active", featured := true, title := "t"
          priceAmount := 5, views := 9
          analytics := { impressions := 4, clicks := 2, saves := 1 }
          images := [] } =
      { agent := 3, status := "active", featured := true, title := "t"
        priceAmount := 5, views := 10
        analytics := { impressions := 5, clicks := 2, saves := 1 }
        images := [] } :=
  ⟨(get_property_view_increment_frame (some 3) _).1 rfl,
   (get_property_view_increment_frame none _).2 (by simp)⟩

/-! ## Image-list operations (routes/upload.js). The three mutating
operations on `property.images`: upload (POST), set-primary (PUT with
`isPrimary: true`), delete (DELETE). -/

/-- Number of images flagged primary. -/
def countPrimary (l : List Image) : ℕ :=
  (l.filter (fun im => im.isPrimary)).length

lemma countPrimary_nil : countPrimary [] = 0 := rfl

lemma countPrimary_cons (im : Image) (l : List Image) :
    countPrimary (im :: l) = (if im.isPrimary then 1 else 0) + countPrimary l := by
  simp only [countPrimary, List.filter_cons]
  cases h : im.isPrimary <;> simp [h] <;> omega

lemma countPrimary_append (a b : List Image) :
    countPrimary (a ++ b) = countPrimary a + countPrimary b := by
  simp [countPrimary, List.filter_append]

/-- Primary flags assigned to a batch of uploaded files:
`isPrimary: index === 0 && property.images.length === 0`, with `index`
counting from `idx` and `existingLen` the image count before the upload. -/
def tagUploads (existingLen : ℕ) (idx : ℕ) : List Image → List Image
  | [] => []
  | f :: rest =>
      { f with isPrimary := idx == 0 && existingLen == 0 } ::
        tagUploads existingLen (idx + 1) rest

/-- Embedding of POST /api/upload/property-images/:propertyId (found, owned):
`property.images.push(...uploadedImages)`. -/
def uploadImages (existing newFiles : List Image) : List Image :=
  existing ++ tagUploads existing.length 0 newFiles

lemma tagUploads_idx_pos (n : ℕ) (files : List Image) (i : ℕ) (hi : i ≠ 0) :
    countPrimary (tagUploads n i files) = 0 := by
  induction files generalizing i with
  | nil => rfl
  | cons f rest ih =>
      rw [tagUploads, countPrimary_cons, ih (i + 1) (by omega)]
      have hflag : (i == 0 && n == 0) = false := by
        simp [hi]
      simp [hflag]

lemma tagUploads_existing_pos (n : ℕ) (files : List Image) (i : ℕ) :
    countPrimary (tagUploads (n + 1) i files) = 0 := by
  induction files generalizing i with
  | nil => rfl
  | cons f rest ih =>
      rw [tagUploads, countPrimary_cons, ih (i + 1)]
      simp

lemma tagUploads_fresh (files : List Image) :
    countPrimary (tagUploads 0 0 files) ≤ 1 := by
  cases files with
  | nil => simp [tagUploads, countPrimary_nil]
  | cons f rest =>
      rw [tagUploads, countPrimary_cons, tagUploads_idx_pos 0 rest 1 (by omega)]
      simp

/-- Clearing of a primary flag (`img.isPrimary = false` in the forEach). -/
def clearPrimary (im : Image) : Image := { im with isPrimary := false }

/-- Effect of the PUT set-primary branch on the image list: every image's flag
is cleared and the first image whose subdocument id matches the target is
flagged primary. -/
def setPrimaryGo : List Image → ℕ → List Image
  | [], _ => []
  | im :: rest, targetId =>
      if im.id = targetId then
        { im with isPrimary := true } :: rest.map clearPrimary
      else clearPrimary im :: setPrimaryGo rest targetId

/-- Embedding of PUT /api/upload/property-images/:propertyId/:imageId with
`isPrimary: true` (found, owned): 404 when `findIndex` misses, otherwise clear
all flags and set the matched image primary. -/
def setPrimaryImage (l : List Image) (targetId : ℕ) : Except ℕ (List Image) :=
  if l.all (fun im => im.id != targetId) then .error 404
  else .ok (setPrimaryGo l targetId)

lemma countPrimary_map_clear (l : List Image) :
    countPrimary (l.map clearPrimary) = 0 := by
  induction l with
  | nil => rfl
  | cons im rest ih =>
      rw [List.map_cons, countPrimary_cons, ih]
      simp [clearPrimary]

lemma setPrimaryGo_count (l : List Image) (t : ℕ) :
    countPrimary (setPrimaryGo l t) ≤ 1 := by
  induction l with
  | nil => simp [setPrimaryGo, countPrimary_nil]
  | cons im rest ih =>
      rw [setPrimaryGo]
      by_cases h : im.id = t
      · rw [if_pos h, countPrimary_cons, countPrimary_map_clear]
        simp
      · rw [if_neg h, countPrimary_cons]
        simp only [clearPrimary, if_neg Bool.false_ne_true]
        omega

/-- First removal by subdocument id:
`findIndex(img => img._id === imageId)` followed by `splice(imageIndex, 1)`,
returning the removed image and the remainder. -/
def removeFirst : List Image → ℕ → Option (Image × List Image)
  | [], _ => none
  | im :: rest, targetId =>
      if im.id = targetId then some (im, rest)
      else
        match removeFirst rest targetId with
        | none => none
        | some (d, r) => some (d, im :: r)

/-- Promotion of the first remaining image: `property.images[0].isPrimary =
true`. -/
def promoteHead : List Image → List Image
  | [] => []
  | im :: rest => { im with isPrimary := true } :: rest

/-- Embedding of DELETE /api/upload/property-images/:propertyId/:imageId
(found, owned): remove the matched image, then, when it was primary and
images remain, promote the first remaining image. -/
def deleteImage (l : List Image) (targetId : ℕ) : Except ℕ (List Image) :=
  match removeFirst l targetId with
  | none => .error 404
  | some (removed, rest) =>
      if removed.isPrimary && decide (0 < rest.length) then .ok (promoteHead rest)
      else .ok rest

lemma removeFirst_count (l : List Image) (t : ℕ) (d : Image) (r : List Image)
    (h : removeFirst l t = some (d, r)) :
    countPrimary l = countPrimary r + (if d.isPrimary then 1 else 0) := by
  induction l generalizing r with
  | nil => exact absurd h (by simp [removeFirst])
  | cons im rest ih =>
      rw [removeFirst] at h
      by_cases hid : im.id = t
      · rw [if_pos hid] at h
        injection h with h
        injection h with h1 h2
        subst h1; subst h2
        rw [countPrimary_cons]
        omega
      · rw [if_neg hid] at h
        cases hrec : removeFirst rest t with
        | none => rw [hrec] at h; exact absurd h (by simp)
        | some p =>
            obtain ⟨d0, r0⟩ := p
            rw [hrec] at h
            injection h with h
            injection h with h1 h2
            subst h1; subst h2
            rw [countPrimary_cons, ih r0 hrec, countPrimary_cons]
            omega

lemma promoteHead_count (x : Image) (xs : List Image) :
    countPrimary (promoteHead (x :: xs)) = 1 + countPrimary xs := by
  rw [promoteHead, countPrimary_cons]
  simp

/-- Claim C7: each of the three image-list operations preserves the invariant
that at most one image is flagged primary, and deleting the primary image
while other images remain promotes exactly one remaining image (the new head)
to primary. -/
theorem image_ops_single_primary (ex nf l : List Image) (t : ℕ) :
    (countPrimary ex ≤ 1 → countPrimary (uploadImages ex nf) ≤ 1) ∧
    (∀ l2 : List Image, countPrimary l ≤ 1 → setPrimaryImage l t = .ok l2 →
        countPrimary l2 ≤ 1) ∧
    (∀ l2 : List Image, countPrimary l ≤ 1 → deleteImage l t = .ok l2 →
        countPrimary l2 ≤ 1) ∧
    (∀ (removed : Image) (rest : List Image),
        countPrimary l ≤ 1 → removeFirst l t = some (removed, rest) →
        removed.isPrimary = true → rest ≠ [] →
        deleteImage l t = .ok (promoteHead rest) ∧
        countPrimary (promoteHead rest) = 1) := by
  refine ⟨?_, ?_, ?_, ?_⟩
  · intro hex
    unfold uploadImages
    rw [countPrimary_append]
    cases ex with
    | nil =>
        rw [countPrimary_nil] at *
        simpa using tagUploads_fresh nf
    | cons e es =>
        rw [List.length_cons, tagUploads_existing_pos es.length nf 0]
        omega
  · intro l2 _hl h
    unfold setPrimaryImage at h
    by_cases hall : l.all (fun im => im.id != t)
    · rw [if_pos hall] at h
      exact absurd h (by simp)
    · rw [if_neg hall] at h
      injection h with h
      subst h
      exact setPrimaryGo_count l t
  · intro l2 hl h
    unfold deleteImage at h
    cases hrf : removeFirst l t with
    | none => rw [hrf] at h; exact absurd h (by simp)
    | some p =>
        obtain ⟨removed, rest⟩ := p
        rw [hrf] at h
        dsimp only at h
        have hcount := removeFirst_count l t removed rest hrf
        by_cases hcond : (removed.isPrimary && decide (0 < rest.length)) = true
        · rw [if_pos hcond] at h
          injection h with h
          subst h
          have hprim : removed.isPrimary = true := by
            have hc := hcond
            rw [Bool.and_eq_true] at hc
            exact hc.1
          rw [hprim, if_pos rfl] at hcount
          have hrest0 : countPrimary rest = 0 := by omega
          cases rest with
          | nil => simp [promoteHead, countPrimary_nil]
          | cons y ys =>
              rw [promoteHead_count]
              rw [countPrimary_cons] at hrest0
              omega
        · rw [if_neg hcond] at h
          injection h with h
          subst h
          omega
  · intro removed rest hl hrf hprim hne
    have hcount := removeFirst_count l t removed rest hrf
    rw [hprim, if_pos rfl] at hcount
    have hrest0 : countPrimary rest = 0 := by omega
    have hlen : 0 < rest.length := List.length_pos.2 hne
    constructor
    · unfold deleteImage
      rw [hrf]
      dsimp only
      rw [if_pos (by simp [hprim, hlen])]
    · cases rest with
      | nil => exact absurd rfl hne
      | cons y ys =>
          rw [promoteHead_count]
          rw [countPrimary_cons] at hrest0
          omega

/-- Witness for claim C7: on a two-image list whose head is primary, deleting
the primary image promotes exactly the remaining image; upload and set-primary
keep a single primary flag on concrete lists. -/
theorem image_ops_single_primary_witness :
    countPrimary (uploadImages []
        [{ id := 1, public_id := "a", url := "u", caption := "", isPrimary := false },
         { id := 2, public_id := "b", url := "v", caption := "", isPrimary := false }]) ≤ 1 ∧
    countPrimary (setPrimaryGo
        [{ id := 1, public_id := "a", url := "u", caption := "", isPrimary := true },
         { id := 2, public_id := "b", url := "v", caption := "", isPrimary := false }] 2) ≤ 1 ∧
    deleteImage
        [{ id := 1, public_id := "a", url := "u", caption := "", isPrimary := true },
         { id := 2, public_id := "b", url := "v", caption := "", isPrimary := false }] 1 =
      .ok (promoteHead
        [{ id := 2, public_id := "b", url := "v", caption := "", isPrimary := false }]) ∧
    countPrimary (promoteHead
        [{ id := 2, public_id := "b", url := "v", caption := "", isPrimary := false }]) = 1 := by
  have h1 := (image_ops_single_primary []
      [{ id := 1, public_id := "a", url := "u", caption := "", isPrimary := false },
       { id := 2, public_id := "b", url := "v", caption := "", isPrimary := false }]
      [] 0).1 (by decide)
  have h2 := (image_ops_single_primary [] []
      [{ id := 1, public_id := "a", url := "u", caption := "", isPrimary := true },
       { id := 2, public_id := "b", url := "v", caption := "", isPrimary := false }]
      2).2.1
    (setPrimaryGo
      [{ id := 1, public_id := "a", url := "u", caption := "", isPrimary := true },
       { id := 2, public_id := "b", url := "v", caption := "", isPrimary := false }] 2)
    (by decide) (by rw [setPrimaryImage, if_neg (by decide)])
  have h3 := (image_ops_single_primary [] []
      [{ id := 1, public_id := "a", url := "u", caption := "", isPrimary := true },
       { id := 2, public_id := "b", url := "v", caption := "", isPrimary := false }]
      1).2.2.2
    { id := 1, public_id := "a", url := "u", caption := "", isPrimary := true }
    [{ id := 2, public_id := "b", url := "v", caption := "", isPrimary := false }]
    (by decide) (by rw [removeFirst, if_pos rfl]) rfl (by simp)
  exact ⟨h1, h2, h3.1, h3.2⟩

/-! ## Rating endpoint (POST /api/agents/:id/rate). The target agent document
and the rater's id; the pair returned is (HTTP status, stored agent document),
the document unchanged on every rejection. -/

/-- The target user document as the rate endpoint sees it. -/
structure AgentDoc where
  id : ℕ
  isAgent : Bool
  isActive : Bool
  rating : Rating
deriving DecidableEq, Repr

/-- Embedding of POST /api/agents/:id/rate: `body(rating).isFloat(min 1, max
5)` else 400; `findOne(_id, isAgent: true, isActive: true)` else 404;
`req.user.id === req.params.id` gives 400 (self-rating); otherwise
`agent.updateRating(rating)` and 200. -/
def rateAgentEndpoint (raterId : ℕ) (agent : AgentDoc) (value : ℚ) :
    ℕ × AgentDoc :=
  if ¬ (1 ≤ value ∧ value ≤ 5) then (400, agent)
  else if ¬ (agent.isAgent = true ∧ agent.isActive = true) then (404, agent)
  else if raterId = agent.id then (400, agent)
  else (200, { agent with rating := updateRating agent.rating value })

/-- Claim C8: a request whose rater id equals the target agent's id is
rejected with HTTP 400 and the agent's rating state (average and count) is
unchanged. -/
theorem self_rating_rejected (agent : AgentDoc) (value : ℚ)
    (hagent : agent.isAgent = true) (hactive : agent.isActive = true) :
    (rateAgentEndpoint agent.id agent value).1 = 400 ∧
    (rateAgentEndpoint agent.id agent value).2 = agent := by
  unfold rateAgentEndpoint
  by_cases hv : 1 ≤ value ∧ value ≤ 5
  · rw [if_neg (by simpa using hv), if_neg (by simp [hagent, hactive]),
      if_pos rfl]
    exact ⟨rfl, rfl⟩
  · rw [if_pos (by simpa using hv)]
    exact ⟨rfl, rfl⟩

/-- Witness for claim C8: a concrete active agent rating themself. -/
theorem self_rating_rejected_witness :
    (rateAgentEndpoint 5
        { id := 5, isAgent := true, isActive := true
          rating := { average := 4, count := 2 } } 3).1 = 400 ∧
    (rateAgentEndpoint 5
        { id := 5, isAgent := true, isActive := true
          rating := { average := 4, count := 2 } } 3).2 =
      { id := 5, isAgent := true, isActive := true
        rating := { average := 4, count := 2 } } :=
  self_rating_rejected
    { id := 5, isAgent := true, isActive := true
      rating := { average := 4, count := 2 } } 3 rfl rfl

/-! ## Deletion with the media host (DELETE
/api/upload/property-images/:propertyId/:imageId). The external
`cloudinary.uploader.destroy` call is modelled by its outcome `hostOk`; the
handler wraps it in try/catch whose catch block only logs, so both branches
continue into the database-side removal. -/

/-- Observable result of the delete-image handler: HTTP status, the `success`
field of the body, the stored image list, and how many times the media-host
deletion was invoked. -/
structure DeleteRunResult where
  status : ℕ
  success : Bool
  images : List Image
  destroyCalls : ℕ
deriving DecidableEq, Repr

/-- Outcome of the single `cloudinary.uploader.destroy` invocation. -/
def destroyOutcome (hostOk : Bool) : Except Unit Unit :=
  if hostOk then .ok () else .error ()

/-- The database-side tail of the handler, shared by both try/catch branches:
splice out the image, promote a new primary if needed, save, respond 200. -/
def finishDelete (removed : Image) (rest : List Image) : DeleteRunResult :=
  { status := 200
    success := true
    images :=
      if removed.isPrimary && decide (0 < rest.length) then promoteHead rest
      else rest
    destroyCalls := 1 }

/-- Embedding of the DELETE handler (found, owned): 404 when the image id
misses; otherwise one `destroy` call whose failure is caught, logged and
swallowed, after which the database deletion proceeds either way. -/
def deleteImageRun (l : List Image) (targetId : ℕ) (hostOk : Bool) :
    DeleteRunResult :=
  match removeFirst l targetId with
  | none => { status := 404, success := false, images := l, destroyCalls := 0 }
  | some (removed, rest) =>
      match destroyOutcome hostOk with
      | .ok _ => finishDelete removed rest
      | .error _ => finishDelete removed rest

/-- Claim C9: when the media-host deletion fails, the failure is swallowed:
the response and the stored image list are identical to the success case, the
database-side removal still happens, the handler reports success, and the
media-host deletion is attempted exactly once (no retry). -/
theorem media_host_failure_swallowed (l : List Image) (t : ℕ)
    (removed : Image) (rest : List Image)
    (hrf : removeFirst l t = some (removed, rest)) :
    deleteImageRun l t false = deleteImageRun l t true ∧
    (deleteImageRun l t false).status = 200 ∧
    (deleteImageRun l t false).success = true ∧
    (deleteImageRun l t false).images =
      (if removed.isPrimary && decide (0 < rest.length) then promoteHead rest
       else rest) ∧
    (deleteImageRun l t false).destroyCalls = 1 := by
  unfold deleteImageRun
  rw [hrf]
  exact ⟨rfl, rfl, rfl, rfl, rfl⟩

/-- Witness for claim C9 on a concrete two-image list. -/
theorem media_host_failure_swallowed_witness :
    deleteImageRun
        [{ id := 1, public_id := "a", url := "u", caption := "", isPrimary := true },
         { id := 2, public_id := "b", url := "v", caption := "", isPrimary := false }]
        1 false =
      deleteImageRun
        [{ id := 1, public_id := "a", url := "u", caption := "", isPrimary := true },
         { id := 2, public_id := "b", url := "v", caption := "", isPrimary := false }]
        1 true ∧
    (deleteImageRun
        [{ id := 1, public_id := "a", url := "u", caption := "", isPrimary := true },
         { id := 2, public_id := "b", url := "v", caption := "", isPrimary := false }]
        1 false).status = 200 := by
  have h := media_host_failure_swallowed
    [{ id := 1, public_id := "a", url := "u", caption := "", isPrimary := true },
     { id := 2, public_id := "b", url := "v", caption := "", isPrimary := false }]
    1
    { id := 1, public_id := "a", url := "u", caption := "", isPrimary := true }
    [{ id := 2, public_id := "b", url := "v", caption := "", isPrimary := false }]
    (by rw [removeFirst, if_pos rfl])
  exact ⟨h.1, h.2.1⟩

end PropertyConnect
